import Mathlib

/-!
Verification of the WhatsApp Meta Business API handler (`src/WhatsApp.ts`).

This file gives a shallow embedding of the webhook ingestion and dispatch
pipeline of `EnhancedWhatsAppHandler` and its collaborator classes
(`WebhookExtractor`, `ConversationStateManager`, `MemoryMessageStorage`,
`MessageQueue`), translated definition-by-definition from the TypeScript
source, and proves or refutes the specified properties about them.

Modelling conventions:
- JavaScript objects with optional fields become structures with `Option`
  fields; JS falsiness of a string value is presence (`Option.isSome`) plus
  non-emptiness where the source relies on it (`jsFalsy`).
- JS `Map` objects become insertion-ordered association lists (`mapGet`,
  `mapSet`), matching `Map.get` / `Map.set` semantics (set replaces the
  value of an existing key in place, appends a new key at the end).
- `Date.now()` / `new Date()` values are threaded explicitly as `now`
  arguments; HMAC-SHA256 is an abstract function argument `hmac` (its
  value is irrelevant to every claim below).
- JS `parseInt` is modelled by `parseIntJs`, with `NaN` collapsed to `0`
  (no claim depends on the numeric value of a malformed timestamp).
- `any`-typed payloads that are only passed through are modelled as
  `String` where their structure is irrelevant to every claim.
- Thrown exceptions inside per-event processing (storage, mark-read, user
  handlers) are abstracted by a failure oracle
  `fails : ExtractedWebhookData → Option String` giving the error message
  the `catch` block would observe, positioned after the conversation-state
  update exactly as in the source's `try` block.
-/

/-- JS falsiness of an optional string: `undefined` and `""` are falsy. -/
def jsFalsy (s : Option String) : Bool :=
  match s with
  | none => true
  | some str => str == ""

/-- Splits a character list at a separator, mirroring JS `String.split`. -/
def splitCharList (sep : Char) : List Char → List (List Char)
  | [] => [[]]
  | c :: rest =>
    let r := splitCharList sep rest
    if c = sep then [] :: r
    else
      match r with
      | [] => [[c]]
      | h :: t => (c :: h) :: t

/-- JS `String.prototype.split` with a single-character separator. -/
def jsSplit (s : String) (sep : Char) : List String :=
  (splitCharList sep s.toList).map (fun cs => String.mk cs)

/-- JS `parseInt` on a decimal string; `NaN` is modelled as `0` (no claim
depends on the value produced for a malformed timestamp). -/
def parseIntJs (s : String) : Int :=
  let cs := s.toList
  let signAndRest : Int × List Char :=
    match cs with
    | '-' :: t => (-1, t)
    | '+' :: t => (1, t)
    | _ => (1, cs)
  let digits := signAndRest.2.takeWhile (fun c => c.isDigit)
  if digits = [] then 0
  else signAndRest.1 * Int.ofNat (digits.foldl (fun n c => n * 10 + (c.toNat - '0'.toNat)) 0)

/-- JS `Map.get`: value of the first (unique) binding of a key. -/
def mapGet {α : Type} (m : List (String × α)) (k : String) : Option α :=
  (m.find? (fun p => p.1 == k)).map (·.2)

/-- JS `Map.set`: replace the value of an existing key in place, otherwise
append the new binding at the end (insertion order preserved). -/
def mapSet {α : Type} (m : List (String × α)) (k : String) (v : α) : List (String × α) :=
  if m.any (fun p => p.1 == k) then
    m.map (fun p => if p.1 == k then (k, v) else p)
  else
    m ++ [(k, v)]

/-- JS object spread `{...a, ...b}` on string-keyed records. -/
def recordMerge (a b : List (String × String)) : List (String × String) :=
  b.foldl (fun acc p => mapSet acc p.1 p.2) (a.foldl (fun acc p => mapSet acc p.1 p.2) [])

theorem find?_map_replace {α : Type} (t : List (String × α)) (k : String) (v : α)
    (c : String) (h : ¬ k = c) :
    ((t.map (fun p => if p.1 == k then (k, v) else p)).find? (fun p => p.1 == c)) =
      t.find? (fun p => p.1 == c) := by
  induction t with
  | nil => rfl
  | cons p t ih =>
    rw [List.map_cons]
    by_cases hp : (p.1 == k) = true
    · rw [if_pos hp]
      have hkc : (((k, v) : String × α).1 == c) = false := by simpa using h
      have hpc : (p.1 == c) = false := by
        have hk : p.1 = k := by simpa using hp
        rw [hk]; simpa using h
      simp only [List.find?_cons, hkc, hpc]
      exact ih
    · rw [if_neg hp]
      cases hpc : (p.1 == c) with
      | true => simp only [List.find?_cons, hpc]
      | false =>
        simp only [List.find?_cons, hpc]
        exact ih

theorem mapGet_mapSet_self {α : Type} (m : List (String × α)) (k : String) (v : α) :
    mapGet (mapSet m k v) k = some v := by
  induction m with
  | nil => simp [mapGet, mapSet]
  | cons p t ih =>
    by_cases h : p.1 = k
    · simp [mapGet, mapSet, h]
    · simp only [mapSet, List.any_cons] at *
      by_cases ht : t.any (fun p => p.1 == k)
      · simp [mapSet, ht, h, mapGet, List.find?] at ih ⊢
        simpa [h, ht] using ih
      · simp [mapGet, mapSet, ht, h, List.find?] at ih ⊢
        simpa [h, ht] using ih

theorem mapGet_mapSet_ne {α : Type} (m : List (String × α)) (k : String) (v : α)
    (c : String) (h : ¬ k = c) :
    mapGet (mapSet m k v) c = mapGet m c := by
  unfold mapSet
  by_cases hany : m.any (fun p => p.1 == k)
  · rw [if_pos hany]
    unfold mapGet
    rw [find?_map_replace m k v c h]
  · rw [if_neg hany]
    unfold mapGet
    rw [List.find?_append]
    have h1 : ([(k, v)].find? (fun p => p.1 == c)) = none := by
      have hkc : (((k, v) : String × α).1 == c) = false := by simpa using h
      simp [hkc]
    rw [h1, Option.or_none]

theorem length_mapSet_of_mem {α : Type} (m : List (String × α)) (k : String) (v : α)
    (h : (mapGet m k).isSome) : (mapSet m k v).length = m.length := by
  have hany : m.any (fun p => p.1 == k) = true := by
    cases hf : m.find? (fun p => p.1 == k) with
    | none => simp [mapGet, hf] at h
    | some p =>
      have hmem := List.mem_of_find?_eq_some hf
      have hp := List.find?_some hf
      exact List.any_eq_true.mpr ⟨p, hmem, hp⟩
  simp [mapSet, hany]

theorem mapGet_mapSet_isSome {α : Type} (m : List (String × α)) (k : String) (v : α) :
    (mapGet (mapSet m k v) k).isSome := by
  simp [mapGet_mapSet_self]

/-! ## Data model: webhook envelope (`WebhookMessage` in the source)

Fields that are only copied verbatim into the extracted event and never
inspected by any control flow relevant to the claims (`conversation`,
`pricing` on statuses, the deeper shapes of contacts/interactive payloads,
the `visual` decoration) are modelled by smaller structures or omitted;
every field that any claim's control flow reads is present. -/

structure TextBody where
  body : String
deriving DecidableEq

structure MediaMessage where
  id : Option String := none
  link : Option String := none
  caption : Option String := none
  mime_type : Option String := none
  sha256 : Option String := none
  file_size : Option Nat := none
deriving DecidableEq

structure LocationMessage where
  latitude : Int
  longitude : Int
  name : Option String := none
  address : Option String := none
deriving DecidableEq

structure ContactMessage where
  formatted_name : String
deriving DecidableEq

structure InteractivePayload where
  interactiveType : String
deriving DecidableEq

structure ReactionMessage where
  message_id : String
  emoji : String
deriving DecidableEq

structure ContextRef where
  sender : String
  id : String
deriving DecidableEq

/-- One element of `value.messages` in the webhook envelope. -/
structure InboundMessage where
  sender : String
  id : String
  timestamp : String
  text : Option TextBody := none
  image : Option MediaMessage := none
  video : Option MediaMessage := none
  audio : Option MediaMessage := none
  voice : Option MediaMessage := none
  document : Option MediaMessage := none
  sticker : Option MediaMessage := none
  location : Option LocationMessage := none
  contacts : Option (List ContactMessage) := none
  interactive : Option InteractivePayload := none
  reaction : Option ReactionMessage := none
  context : Option ContextRef := none
deriving DecidableEq

structure StatusErrorEntry where
  code : Int
  title : String
  message : Option String := none
deriving DecidableEq

/-- One element of `value.statuses` in the webhook envelope. -/
structure StatusUpdate where
  id : String
  status : String
  timestamp : String
  recipient_id : String
  errors : Option (List StatusErrorEntry) := none
deriving DecidableEq

/-- One element of `value.errors` in the webhook envelope. -/
structure ValueErrorEntry where
  code : Int
  title : String
  message : Option String := none
deriving DecidableEq

structure ValueMetadata where
  display_phone_number : String
  phone_number_id : String
deriving DecidableEq

structure ContactInfo where
  profile_name : String
  wa_id : String
deriving DecidableEq

/-- The `value` object of one change in the envelope. -/
structure ChangeValue where
  messaging_product : String := "whatsapp"
  metadata : Option ValueMetadata := none
  contacts : Option (List ContactInfo) := none
  messages : Option (List InboundMessage) := none
  statuses : Option (List StatusUpdate) := none
  errors : Option (List ValueErrorEntry) := none
deriving DecidableEq

structure Change where
  value : ChangeValue
  field : String := "messages"
deriving DecidableEq

structure Entry where
  id : String
  changes : List Change
deriving DecidableEq

/-- The top-level webhook envelope. -/
structure WebhookMessage where
  object : String := "whatsapp_business_account"
  entry : List Entry
deriving DecidableEq

/-! ## Data model: extracted events (`ExtractedWebhookData` in the source) -/

structure MediaContent where
  mediaType : String
  id : Option String := none
  caption : Option String := none
  mimeType : Option String := none
  sha256 : Option String := none
  fileSize : Option Nat := none
deriving DecidableEq

structure LocationContent where
  latitude : Int
  longitude : Int
  name : Option String := none
  address : Option String := none
deriving DecidableEq

/-- The `content` union of an extracted event. -/
structure EventContent where
  text : Option String := none
  media : Option MediaContent := none
  location : Option LocationContent := none
  contacts : Option (List ContactMessage) := none
  interactive : Option InteractivePayload := none
  reaction : Option ReactionMessage := none
  context : Option ContextRef := none
deriving DecidableEq

structure StatusInfo where
  status : String
  timestamp : Int
deriving DecidableEq

structure ErrorInfo where
  code : Int
  title : String
  message : Option String := none
deriving DecidableEq

/-- The normalized unit of work produced by the extractor (the source's
`ExtractedWebhookData`; the purely decorative `visual` field is omitted). -/
structure ExtractedWebhookData where
  eventType : String
  timestamp : Int
  phoneNumberId : String
  displayPhoneNumber : String
  waId : String
  displayName : String
  messageId : Option String := none
  conversationId : String
  content : EventContent
  status : Option StatusInfo := none
  error : Option ErrorInfo := none
  raw : ChangeValue
deriving DecidableEq

namespace WebhookExtractor

/-- First-match-wins content-type detection over the message's fields, in
the source's order. -/
def determineMessageEventType (message : InboundMessage) : String :=
  if message.text.isSome then "message:text"
  else if message.image.isSome then "message:image"
  else if message.video.isSome then "message:video"
  else if message.audio.isSome then "message:audio"
  else if message.voice.isSome then "message:voice"
  else if message.document.isSome then "message:document"
  else if message.sticker.isSome then "message:sticker"
  else if message.location.isSome then "message:location"
  else if message.contacts.isSome then "message:contact"
  else if message.interactive.isSome then "message:interactive"
  else if message.reaction.isSome then "message:reaction"
  else "message:unknown"

/-- The `message[mediaType]` indexing step of `extractMessageContent`. -/
def mediaFieldOf (message : InboundMessage) (mediaType : String) : Option MediaMessage :=
  if mediaType == "image" then message.image
  else if mediaType == "video" then message.video
  else if mediaType == "audio" then message.audio
  else if mediaType == "voice" then message.voice
  else if mediaType == "document" then message.document
  else if mediaType == "sticker" then message.sticker
  else none

/-- Builds the `content` union of an extracted message event. -/
def extractMessageContent (message : InboundMessage) : EventContent :=
  let text := message.text.map (fun t => t.body)
  let media :=
    if message.image.isSome || message.video.isSome || message.audio.isSome ||
        message.document.isSome || message.sticker.isSome || message.voice.isSome then
      let mediaType :=
        if message.image.isSome then "image"
        else if message.video.isSome then "video"
        else if message.audio.isSome then "audio"
        else if message.voice.isSome then "voice"
        else if message.document.isSome then "document"
        else "sticker"
      let mediaData := mediaFieldOf message mediaType
      some { mediaType := mediaType
             id := mediaData.bind (fun d => d.id)
             caption := mediaData.bind (fun d => d.caption)
             mimeType := mediaData.bind (fun d => d.mime_type)
             sha256 := mediaData.bind (fun d => d.sha256)
             fileSize := mediaData.bind (fun d => d.file_size) }
    else none
  let location := message.location.map (fun l =>
    { latitude := l.latitude, longitude := l.longitude, name := l.name, address := l.address })
  { text := text
    media := media
    location := location
    contacts := message.contacts
    interactive := message.interactive
    reaction := message.reaction
    context := message.context }

/-- Events extracted from a single change value, in source order: one per
inbound message, then one per status update, then one per top-level error.
`nowMs` stands for `new Date()` at the error branch. -/
def extractFromValue (value : ChangeValue) (nowMs : Int) : List ExtractedWebhookData :=
  let metadata := value.metadata.getD
    { phone_number_id := "unknown", display_phone_number := "unknown" }
  let contacts := value.contacts.getD []
  let contact := contacts.head?.getD { wa_id := "unknown", profile_name := "unknown" }
  let phoneNumberId := metadata.phone_number_id
  let displayPhoneNumber := metadata.display_phone_number
  let waId := contact.wa_id
  let displayName := contact.profile_name
  let messageEvents := (value.messages.getD []).map (fun message =>
    { eventType := determineMessageEventType message
      timestamp := parseIntJs message.timestamp * 1000
      messageId := some message.id
      phoneNumberId := phoneNumberId
      displayPhoneNumber := displayPhoneNumber
      waId := waId
      displayName := displayName
      content := extractMessageContent message
      conversationId := if message.sender ≠ "" then message.sender else waId
      raw := value })
  let statusEvents := (value.statuses.getD []).map (fun status =>
    { eventType := "status:" ++ status.status
      timestamp := parseIntJs status.timestamp * 1000
      messageId := some status.id
      phoneNumberId := phoneNumberId
      displayPhoneNumber := displayPhoneNumber
      waId := waId
      displayName := displayName
      content := {}
      conversationId := if status.recipient_id ≠ "" then status.recipient_id else waId
      status := some { status := status.status, timestamp := parseIntJs status.timestamp * 1000 }
      error := (status.errors.bind (fun es => es.head?)).map (fun e =>
        { code := e.code, title := e.title, message := e.message })
      raw := value })
  let errorEvents := (value.errors.getD []).map (fun error =>
    { eventType := "system:webhook_error"
      timestamp := nowMs
      phoneNumberId := phoneNumberId
      displayPhoneNumber := displayPhoneNumber
      waId := waId
      displayName := displayName
      content := {}
      conversationId := waId
      error := some { code := error.code, title := error.title, message := error.message }
      raw := value })
  messageEvents ++ statusEvents ++ errorEvents

/-- The extractor: every entry, every change, in envelope order. -/
def extractMessageData (webhookMessage : WebhookMessage) (nowMs : Int) :
    List ExtractedWebhookData :=
  webhookMessage.entry.flatMap (fun entry =>
    entry.changes.flatMap (fun change => extractFromValue change.value nowMs))

end WebhookExtractor

/-! ## Conversation state (`ConversationStateManager` in the source)

The manager's `states` map is an insertion-ordered association list; the
write-only `stateHistory` map (appended to, never read) is omitted. `Date`
values are `Nat` instants passed as `now`. -/

structure ConversationState where
  id : String
  state : String
  lastActivity : Nat
  messageCount : Nat
  displayName : String
  currentStep : Option String := none
  metadata : List (String × String) := []
  context : List (String × String) := []
deriving DecidableEq

/-- A `Partial<Omit<ConversationState, 'id'>>` update: `none` = key absent. -/
structure ConversationStateUpdates where
  state : Option String := none
  lastActivity : Option Nat := none
  messageCount : Option Nat := none
  displayName : Option String := none
  currentStep : Option String := none
  metadata : Option (List (String × String)) := none
  context : Option (List (String × String)) := none

namespace ConversationStateManager

/-- The `states` map of the manager. -/
abbrev States := List (String × ConversationState)

def getState (states : States) (conversationId : String) : Option ConversationState :=
  mapGet states conversationId

/-- Merge semantics of `updateState`: defaults, then the existing state,
then the updates, and `lastActivity` always refreshed to now. -/
def updateState (states : States) (conversationId : String)
    (updates : ConversationStateUpdates) (now : Nat) : ConversationState × States :=
  let existingState := getState states conversationId
  let newState : ConversationState :=
    { id := conversationId
      state := updates.state.getD ((existingState.map (fun s => s.state)).getD "active")
      lastActivity := now
      messageCount := updates.messageCount.getD
        ((existingState.map (fun s => s.messageCount)).getD 0)
      displayName := updates.displayName.getD
        ((existingState.map (fun s => s.displayName)).getD "")
      currentStep := updates.currentStep.orElse
        (fun _ => existingState.bind (fun s => s.currentStep))
      metadata := updates.metadata.getD
        ((existingState.map (fun s => s.metadata)).getD [])
      context := updates.context.getD
        ((existingState.map (fun s => s.context)).getD []) }
  (newState, mapSet states conversationId newState)

/-- Increment of `messageCount` on an extracted event; the JS fallback
`displayName || currentState?.displayName` collapses an undefined result
to `""`. -/
def updateStateFromMessage (states : States) (extractedData : ExtractedWebhookData)
    (now : Nat) : ConversationState × States :=
  let conversationId := extractedData.conversationId
  let currentState := getState states conversationId
  let messageCount := ((currentState.map (fun s => s.messageCount)).getD 0) + 1
  let displayName :=
    if extractedData.displayName ≠ "" then extractedData.displayName
    else (currentState.map (fun s => s.displayName)).getD ""
  updateState states conversationId
    { displayName := some displayName, messageCount := some messageCount } now

def setStep (states : States) (conversationId step : String) (now : Nat) :
    ConversationState × States :=
  updateState states conversationId { currentStep := some step } now

def updateContext (states : States) (conversationId : String)
    (context : List (String × String)) (now : Nat) : ConversationState × States :=
  let currentContext := ((getState states conversationId).map (fun s => s.context)).getD []
  updateState states conversationId { context := some (recordMerge currentContext context) } now

def getActiveConversations (states : States) : List ConversationState :=
  (states.map (fun p => p.2)).filter (fun s => s.state == "active" || s.state == "waiting")

end ConversationStateManager

/-! ## Webhook dispatcher per-event loop and aggregation
(`EnhancedWhatsAppHandler.handleWebhookEvents`, lines 1122-1186) -/

/-- One element of the dispatcher's per-event `errors` list. -/
structure ProcessingError where
  event : String
  error : String
deriving DecidableEq

structure WebhookStatistics where
  totalEvents : Nat
  processedEvents : Nat
  errors : Nat
deriving DecidableEq

/-- The `error` member of a partial-processing result. -/
structure ResultErrorInfo where
  code : String
  message : String
  details : List ProcessingError
deriving DecidableEq

/-- The aggregated `WebhookResult` of a POST dispatch that reached
per-event processing. -/
structure WebhookEventsResult where
  success : Bool
  status : Nat
  events : List ExtractedWebhookData
  statistics : WebhookStatistics
  conversations : List ConversationState
  error : Option ResultErrorInfo
deriving DecidableEq

namespace EnhancedWhatsAppHandler

/-- One iteration of the per-event `for` loop. The conversation state is
updated first (for any event with a truthy `conversationId`); a thrown
exception afterwards — storage, auto-mark-read beyond its local catch, or
a user handler — is abstracted by `fails` and lands in the `errors` list,
after which the loop continues with the next event. -/
def dispatchStep (fails : ExtractedWebhookData → Option String) (now : Nat)
    (acc : ConversationStateManager.States × List ExtractedWebhookData × List ProcessingError)
    (data : ExtractedWebhookData) :
    ConversationStateManager.States × List ExtractedWebhookData × List ProcessingError :=
  let (states, processedEvents, errors) := acc
  let states :=
    if data.conversationId ≠ "" then
      (ConversationStateManager.updateStateFromMessage states data now).2
    else states
  match fails data with
  | none => (states, processedEvents ++ [data], errors)
  | some msg => (states, processedEvents, errors ++ [{ event := data.eventType, error := msg }])

/-- The whole per-event loop over the extracted data. -/
def dispatchEvents (states : ConversationStateManager.States)
    (fails : ExtractedWebhookData → Option String) (now : Nat)
    (extractedData : List ExtractedWebhookData) :
    ConversationStateManager.States × List ExtractedWebhookData × List ProcessingError :=
  extractedData.foldl (dispatchStep fails now) (states, [], [])

/-- Aggregation of the loop's outcome into the `WebhookResult`. -/
def handleWebhookEventsLoop (states : ConversationStateManager.States)
    (fails : ExtractedWebhookData → Option String) (now : Nat)
    (extractedData : List ExtractedWebhookData) :
    WebhookEventsResult × ConversationStateManager.States :=
  let outcome := dispatchEvents states fails now extractedData
  let states2 := outcome.1
  let processedEvents := outcome.2.1
  let errors := outcome.2.2
  let activeConversations := ConversationStateManager.getActiveConversations states2
  ({ success := errors.length == 0
     status := 200
     events := processedEvents
     statistics :=
       { totalEvents := extractedData.length
         processedEvents := processedEvents.length
         errors := errors.length }
     conversations := activeConversations
     error :=
       if errors.length > 0 then
         some { code := "PARTIAL_PROCESSING"
                message := toString errors.length ++ " events failed to process"
                details := errors }
       else none }, states2)

end EnhancedWhatsAppHandler

/-! ## Verification handshake and signature check -/

/-- The resolved `Required<WebhookHandlerConfig>` held by the handler. -/
structure WebhookHandlerConfig where
  verifyToken : String
  appSecret : String
  autoProcess : Bool
  autoMarkRead : Bool
  verifySignature : Bool
  maxBodySize : Nat
  timeout : Nat
deriving DecidableEq

/-- Outcome of `handleVerification` (the GET branch of `processWebhook`):
either a success carrying the challenge, or a 403 `VERIFICATION_FAILED`
error result with no challenge. -/
structure VerificationResult where
  success : Bool
  status : Nat
  challenge : Option String
  errorCode : Option String
deriving DecidableEq

namespace EnhancedWhatsAppHandler

/-- GET verification: `hub.mode`, `hub.verify_token`, `hub.challenge` read
from the query; success requires mode `subscribe`, exact token match and a
truthy challenge. -/
def handleVerification (cfg : WebhookHandlerConfig)
    (mode token challenge : Option String) : VerificationResult :=
  if mode == some "subscribe" && token == some cfg.verifyToken && !(jsFalsy challenge) then
    { success := true, status := 200, challenge := challenge, errorCode := none }
  else
    { success := false, status := 403, challenge := none, errorCode := some "VERIFICATION_FAILED" }

/-- The private `verifySignature` method: false on a falsy signature header
or an unconfigured secret, otherwise constant-time comparison of the header
against `"sha256=" ++ HMAC-SHA256(secret, payload)`. `hmac` abstracts the
hex HMAC; `timingSafeEqual` (with its catch on length mismatch) is
observationally string equality. -/
def verifySignature (hmac : String → String → String) (cfg : WebhookHandlerConfig)
    (payload : String) (signature : Option String) : Bool :=
  if jsFalsy signature || cfg.appSecret == "" then false
  else
    let expectedSignature := "sha256=" ++ hmac cfg.appSecret payload
    (signature.getD "") == expectedSignature

/-- The signature stage at the top of `handleWebhookEvents`: the check runs
only when `verifySignature` is enabled AND `appSecret` is truthy; the
result is `some "INVALID_SIGNATURE"` for a terminal 401 rejection and
`none` when the request proceeds to body parsing. -/
def signatureStage (hmac : String → String → String) (cfg : WebhookHandlerConfig)
    (payload : String) (signatureHeader : Option String) : Option String :=
  if cfg.verifySignature && !(cfg.appSecret == "") then
    if verifySignature hmac cfg payload signatureHeader then none
    else some "INVALID_SIGNATURE"
  else none

end EnhancedWhatsAppHandler

/-! ## Handler dispatch (`callWebhookHandlers`)

User handlers are abstracted by which names are registered; the model
returns the ordered list of invocations the source performs, each with the
argument it passes. -/

inductive HandlerArgument where
  | raw (value : ChangeValue)
  | content (c : EventContent)
  | status (s : Option StatusInfo)
  | error (e : Option ErrorInfo)
deriving DecidableEq

structure HandlerInvocation where
  handler : String
  argument : HandlerArgument
deriving DecidableEq

namespace EnhancedWhatsAppHandler

/-- The sub-type dispatch table inside the `message` case. -/
def handlerMap (subType : String) : Option String :=
  if subType == "text" then some "onMessage"
  else if subType == "image" then some "onMedia"
  else if subType == "video" then some "onMedia"
  else if subType == "audio" then some "onMedia"
  else if subType == "voice" then some "onVoice"
  else if subType == "document" then some "onMedia"
  else if subType == "sticker" then some "onMedia"
  else if subType == "location" then some "onLocation"
  else if subType == "contact" then some "onContact"
  else if subType == "interactive" then some "onInteractive"
  else if subType == "reaction" then some "onReaction"
  else none

/-- Dispatch of one extracted event to the registered user handlers, in
source order: for a `message` event the generic `onMessage` handler first
(with the raw change value), then the sub-type handler from `handlerMap`
(with the extracted content); for `status` the status handler; for
`system:webhook_error` the error handler. -/
def callWebhookHandlers (registered : String → Bool) (data : ExtractedWebhookData) :
    List HandlerInvocation :=
  let parts := jsSplit data.eventType ':'
  let category := parts.getD 0 ""
  let subType := parts.getD 1 ""
  if category == "message" then
    (if registered "onMessage" then
      [{ handler := "onMessage", argument := .raw data.raw }] else []) ++
    (match handlerMap subType with
     | some handlerName =>
       if registered handlerName then
         [{ handler := handlerName, argument := .content data.content }]
       else []
     | none => [])
  else if category == "status" then
    if registered "onMessageStatus" then
      [{ handler := "onMessageStatus", argument := .status data.status }]
    else []
  else if category == "system" then
    if data.eventType == "system:webhook_error" && registered "onError" then
      [{ handler := "onError", argument := .error data.error }]
    else []
  else []

end EnhancedWhatsAppHandler

/-! ## Message storage (`MemoryMessageStorage`)

`messages` and `conversationIndex` are insertion-ordered maps. Message
`content` is `any` in the source and only passed through, so it is
modelled as `String`. The locally generated fallback id
(`msg_${Date.now()}_${random}`) is passed in as `freshId`. -/

structure StoredMessageError where
  code : Int
  message : String
deriving DecidableEq

structure StoredMessage where
  id : String
  whatsappId : Option String := none
  conversationId : String
  direction : String
  msgType : String
  content : String
  timestamp : Nat
  status : String
  error : Option StoredMessageError := none
deriving DecidableEq

/-- Descending-timestamp comparator of `getMessages` (`b.timestamp - a.timestamp`). -/
def timestampDesc (a b : StoredMessage) : Prop := b.timestamp ≤ a.timestamp

instance : DecidableRel timestampDesc := fun _ _ => Nat.decLe _ _

instance : IsTotal StoredMessage timestampDesc :=
  ⟨fun a b => Nat.le_total b.timestamp a.timestamp⟩

instance : IsTrans StoredMessage timestampDesc :=
  ⟨fun _ _ _ h1 h2 => Nat.le_trans h2 h1⟩

namespace MemoryMessageStorage

structure Store where
  messages : List (String × StoredMessage) := []
  conversationIndex : List (String × List String) := []
deriving DecidableEq

/-- Stores a message under its id (or `freshId` when the id is falsy),
overwriting any record with the same id, and appends the id to the
conversation's index list unconditionally. -/
def storeMessage (s : Store) (message : StoredMessage) (freshId : String) : String × Store :=
  let id := if message.id ≠ "" then message.id else freshId
  let messageToStore := { message with id := id }
  let messages := mapSet s.messages id messageToStore
  let existingIndex := (mapGet s.conversationIndex message.conversationId).getD []
  let conversationIndex :=
    mapSet s.conversationIndex message.conversationId (existingIndex ++ [id])
  (id, { messages := messages, conversationIndex := conversationIndex })

/-- Pagination over the conversation's ids in insertion order
(`slice(offset, offset + limit)`), then lookup, then sort by timestamp
descending. -/
def getMessages (s : Store) (conversationId : String) (limit offset : Nat) :
    List StoredMessage :=
  let messageIds := (mapGet s.conversationIndex conversationId).getD []
  let paginatedIds := (messageIds.drop offset).take limit
  List.insertionSort timestampDesc
    (paginatedIds.filterMap (fun id => mapGet s.messages id))

def getMessage (s : Store) (messageId : String) : Option StoredMessage :=
  mapGet s.messages messageId

end MemoryMessageStorage

/-! ## Outbound send storage round-trip (`sendMessage`, lines 1489-1537)

Only the storage interaction is modelled: the REST call's outcome is a
parameter. A successful call yields `response.messages[0]?.id` (possibly
absent); a failure yields the error message. -/

inductive SendOutcome where
  | ok (providerMessageId : Option String)
  | failed (errorMessage : String)
deriving DecidableEq

/-- The `pending` record `sendMessage` builds before the send attempt;
`localId` is the generated `out_${Date.now()}_${random}` id. -/
def pendingOutgoingRecord (toNumber message localId : String) (now : Nat) : StoredMessage :=
  { id := localId
    conversationId := toNumber
    direction := "outgoing"
    msgType := "text"
    content := message
    timestamp := now
    status := "pending" }

namespace EnhancedWhatsAppHandler

/-- The storage effects of `sendMessage`: store pending, attempt the send,
then store the same record again mutated to `sent` (with the provider id)
or `failed` (with the error descriptor). Returns the final store, the
intermediate store after the pending write, and the final record. -/
def sendMessageStore (s : MemoryMessageStorage.Store) (toNumber message localId : String)
    (now : Nat) (outcome : SendOutcome) :
    MemoryMessageStorage.Store × MemoryMessageStorage.Store × StoredMessage :=
  let storedMessage := pendingOutgoingRecord toNumber message localId now
  let s1 := (MemoryMessageStorage.storeMessage s storedMessage "").2
  match outcome with
  | .ok providerMessageId =>
    let updated := { storedMessage with whatsappId := providerMessageId, status := "sent" }
    ((MemoryMessageStorage.storeMessage s1 updated "").2, s1, updated)
  | .failed errorMessage =>
    let updated := { storedMessage with
      status := "failed", error := some { code := 500, message := errorMessage } }
    ((MemoryMessageStorage.storeMessage s1 updated "").2, s1, updated)

end EnhancedWhatsAppHandler

/-! ## Message queue (`MessageQueue`) and the delivery loop -/

structure MessageQueueItem where
  id : String
  toNumber : String
  msgType : String
  payload : String
  attempts : Nat
  timestamp : Nat
  priority : Option Nat := none
deriving DecidableEq

structure MessageQueue where
  queue : List MessageQueueItem
  maxSize : Nat
deriving DecidableEq

namespace MessageQueue

/-- Bounded enqueue. The spread `{...item, attempts: 0, timestamp: Date.now()}`
rebuilds the item with `attempts` reset to 0 and a fresh timestamp; a
positive priority puts it at the front, otherwise at the back. Returns
false (queue untouched) at capacity. -/
def enqueue (q : MessageQueue) (item : MessageQueueItem) (now : Nat) :
    Bool × MessageQueue :=
  if q.queue.length ≥ q.maxSize then (false, q)
  else
    let queueItem := { item with attempts := 0, timestamp := now }
    if 0 < item.priority.getD 0 then
      (true, { q with queue := queueItem :: q.queue })
    else
      (true, { q with queue := q.queue ++ [queueItem] })

def dequeue (q : MessageQueue) : Option MessageQueueItem × MessageQueue :=
  match q.queue with
  | [] => (none, q)
  | item :: rest => (some item, { q with queue := rest })

def isEmpty (q : MessageQueue) : Bool := q.queue.length == 0

end MessageQueue

/-- Notifications emitted by the queue processor. -/
inductive QueueNotification where
  | queuedMessageSent (queueId : String)
  | queuedMessageFailed (queueId : String) (attempts : Nat)
deriving DecidableEq

namespace EnhancedWhatsAppHandler

/-- One delivery cycle of `startQueueProcessor`'s `processQueue`: dequeue
one item; on success emit `queuedMessageSent`; on failure increment its
`attempts` and re-enqueue it while `attempts < maxRetries`, else emit
`queuedMessageFailed`. The REST call outcome is abstracted by `deliver`. -/
def processQueueOnce (maxRetries : Nat) (deliver : MessageQueueItem → Bool) (now : Nat)
    (q : MessageQueue) : MessageQueue × List QueueNotification :=
  match MessageQueue.dequeue q with
  | (none, q1) => (q1, [])
  | (some item, q1) =>
    if deliver item then (q1, [.queuedMessageSent item.id])
    else
      let item := { item with attempts := item.attempts + 1 }
      if item.attempts < maxRetries then
        let item := { item with timestamp := now }
        ((MessageQueue.enqueue q1 item now).2, [])
      else
        (q1, [.queuedMessageFailed item.id item.attempts])

/-- Iterated delivery cycles, collecting the emitted notifications. -/
def processQueueRun (maxRetries : Nat) (deliver : MessageQueueItem → Bool) (now : Nat) :
    Nat → MessageQueue → MessageQueue × List QueueNotification
  | 0, q => (q, [])
  | Nat.succ n, q =>
    let (q1, evs1) := processQueueOnce maxRetries deliver now q
    let (q2, evs2) := processQueueRun maxRetries deliver now n q1
    (q2, evs1 ++ evs2)

end EnhancedWhatsAppHandler

/-! ## Fixtures used by witnesses and counterexamples -/

def sampleQueueItem : MessageQueueItem :=
  { id := "q1", toNumber := "555", msgType := "text", payload := "hello",
    attempts := 0, timestamp := 0 }

def emptyBoundedQueue : MessageQueue := { queue := [], maxSize := 1 }

def fullBoundedQueue : MessageQueue :=
  { queue := [{ sampleQueueItem with id := "q0" }], maxSize := 1 }

def sampleWebhookConfig : WebhookHandlerConfig :=
  { verifyToken := "T", appSecret := "", autoProcess := true, autoMarkRead := true,
    verifySignature := true, maxBodySize := 10485760, timeout := 30000 }

/-! ## C9 — bounded enqueue -/

/-- C9: for every queue state at or above the configured maximum size,
`enqueue` returns false and leaves the queue unchanged (in particular it
does not throw: the model is a total function); below capacity it returns
true and the length grows by exactly one. -/
theorem enqueue_backpressure :
    (∀ (q : MessageQueue) (item : MessageQueueItem) (now : Nat),
        q.queue.length ≥ q.maxSize →
          MessageQueue.enqueue q item now = (false, q)) ∧
    (∀ (q : MessageQueue) (item : MessageQueueItem) (now : Nat),
        q.queue.length < q.maxSize →
          (MessageQueue.enqueue q item now).1 = true ∧
          (MessageQueue.enqueue q item now).2.queue.length = q.queue.length + 1) := by
  constructor
  · intro q item now h
    simp [MessageQueue.enqueue, h]
  · intro q item now h
    have h2 : ¬ q.queue.length ≥ q.maxSize := Nat.not_le.mpr h
    by_cases hp : 0 < item.priority.getD 0
    · simp [MessageQueue.enqueue, h2, hp]
    · simp [MessageQueue.enqueue, h2, hp]

/-- Witness for C9 at a concrete full queue and a concrete queue with room. -/
theorem enqueue_backpressure_witness :
    MessageQueue.enqueue fullBoundedQueue sampleQueueItem 5 = (false, fullBoundedQueue) ∧
    (MessageQueue.enqueue emptyBoundedQueue sampleQueueItem 5).1 = true ∧
    (MessageQueue.enqueue emptyBoundedQueue sampleQueueItem 5).2.queue.length =
      emptyBoundedQueue.queue.length + 1 :=
  ⟨enqueue_backpressure.1 fullBoundedQueue sampleQueueItem 5 (by decide),
   (enqueue_backpressure.2 emptyBoundedQueue sampleQueueItem 5 (by decide)).1,
   (enqueue_backpressure.2 emptyBoundedQueue sampleQueueItem 5 (by decide)).2⟩

/-! ## C6 — verification handshake -/

/-- C6: a GET verification request with mode `subscribe`, the exact
configured token and a non-empty challenge succeeds carrying the challenge
unchanged; any mismatch of mode or token, or an empty/missing challenge,
yields the terminal 403 `VERIFICATION_FAILED` result with no challenge. -/
theorem handleVerification_contract :
    (∀ (cfg : WebhookHandlerConfig) (c : String), c ≠ "" →
        EnhancedWhatsAppHandler.handleVerification cfg (some "subscribe")
            (some cfg.verifyToken) (some c) =
          { success := true, status := 200, challenge := some c, errorCode := none }) ∧
    (∀ (cfg : WebhookHandlerConfig) (mode token challenge : Option String),
        mode ≠ some "subscribe" ∨ token ≠ some cfg.verifyToken ∨ jsFalsy challenge = true →
          EnhancedWhatsAppHandler.handleVerification cfg mode token challenge =
            { success := false, status := 403, challenge := none,
              errorCode := some "VERIFICATION_FAILED" }) := by
  constructor
  · intro cfg c hc
    have hfalsy : jsFalsy (some c) = false := by simp [jsFalsy, hc]
    simp [EnhancedWhatsAppHandler.handleVerification, hfalsy]
  · intro cfg mode token challenge h
    rcases h with h | h | h
    · have h1 : (mode == some "subscribe") = false := beq_eq_false_iff_ne.mpr h
      simp [EnhancedWhatsAppHandler.handleVerification, h1]
    · have h1 : (token == some cfg.verifyToken) = false := beq_eq_false_iff_ne.mpr h
      simp [EnhancedWhatsAppHandler.handleVerification, h1]
    · simp [EnhancedWhatsAppHandler.handleVerification, h]

/-- Witness for C6: matching request echoes challenge "123"; a wrong token
is rejected with 403 and no challenge. -/
theorem handleVerification_contract_witness :
    EnhancedWhatsAppHandler.handleVerification sampleWebhookConfig (some "subscribe")
        (some "T") (some "123") =
      { success := true, status := 200, challenge := some "123", errorCode := none } ∧
    EnhancedWhatsAppHandler.handleVerification sampleWebhookConfig (some "subscribe")
        (some "WRONG") (some "123") =
      { success := false, status := 403, challenge := none,
        errorCode := some "VERIFICATION_FAILED" } :=
  ⟨handleVerification_contract.1 sampleWebhookConfig "123" (by decide),
   handleVerification_contract.2 sampleWebhookConfig (some "subscribe") (some "WRONG")
     (some "123") (Or.inr (Or.inl (by decide)))⟩

/-! ## C1 — signature verification with an unconfigured secret -/

/-- C1 counterexample: with the verify-signature flag enabled but the app
secret empty, a POST with no signature header is NOT rejected — the
signature stage returns `none` (request proceeds to parsing), contradicting
the claim that it is rejected with the invalid-signature failure. -/
theorem signature_stage_counterexample :
    sampleWebhookConfig.verifySignature = true ∧
    sampleWebhookConfig.appSecret = "" ∧
    EnhancedWhatsAppHandler.signatureStage (fun _ _ => "0") sampleWebhookConfig "{}" none =
      none :=
  ⟨rfl, rfl, rfl⟩

/-- C1 amended: when the verify-signature flag is enabled but the app
secret is empty, `handleWebhookEvents` skips the signature check entirely
and the request proceeds to parsing (the `verifySignature` helper itself
would fail closed — it returns false on an unconfigured secret — but it is
never consulted in that case). -/
theorem signature_stage_skips_when_secret_empty
    (hmac : String → String → String) (cfg : WebhookHandlerConfig)
    (payload : String) (signature : Option String)
    (hsecret : cfg.appSecret = "") :
    EnhancedWhatsAppHandler.signatureStage hmac cfg payload signature = none ∧
    EnhancedWhatsAppHandler.verifySignature hmac cfg payload signature = false := by
  constructor
  · simp [EnhancedWhatsAppHandler.signatureStage, hsecret]
  · simp [EnhancedWhatsAppHandler.verifySignature, hsecret]

/-- Witness for the amended C1 at a concrete configuration and request. -/
theorem signature_stage_skips_witness :
    EnhancedWhatsAppHandler.signatureStage (fun _ _ => "0") sampleWebhookConfig "body"
        (some "sha256=deadbeef") = none ∧
    EnhancedWhatsAppHandler.verifySignature (fun _ _ => "0") sampleWebhookConfig "body"
        (some "sha256=deadbeef") = false :=
  signature_stage_skips_when_secret_empty (fun _ _ => "0") sampleWebhookConfig "body"
    (some "sha256=deadbeef") rfl

/-! ## C8 — queue retry exhaustion -/

/-- C8: the claim is the code's evident intent but the code defeats it:
`enqueue` rebuilds the item with `attempts: 0`, so a failed item re-enqueued
by the delivery loop loses its incremented attempt count. Starting from a
queue holding one item with `maxRetries = 3` and a delivery that always
fails, ten delivery cycles (far beyond the maximum) emit no
permanent-failure notification and leave the item queued (attempts still
0), i.e. it keeps being redelivered forever; the last conjunct isolates the
reset performed by `enqueue`. -/
theorem queue_retry_never_exhausts :
    (EnhancedWhatsAppHandler.processQueueRun 3 (fun _ => false) 7 10
        { queue := [sampleQueueItem], maxSize := 1000 }).2 = [] ∧
    (EnhancedWhatsAppHandler.processQueueRun 3 (fun _ => false) 7 10
        { queue := [sampleQueueItem], maxSize := 1000 }).1.queue =
      [{ sampleQueueItem with timestamp := 7 }] ∧
    (MessageQueue.enqueue { queue := [], maxSize := 1000 }
        { sampleQueueItem with attempts := 2 } 7).2.queue =
      [{ sampleQueueItem with attempts := 0, timestamp := 7 }] := by
  decide

/-! ## C2 — per-event error isolation and aggregation -/

theorem dispatch_fold_processed_errors
    (fails : ExtractedWebhookData → Option String) (now : Nat) :
    ∀ (events : List ExtractedWebhookData) (states : ConversationStateManager.States)
      (p : List ExtractedWebhookData) (e : List ProcessingError),
      (events.foldl (EnhancedWhatsAppHandler.dispatchStep fails now) (states, p, e)).2.1 =
          p ++ events.filter (fun d => (fails d).isNone) ∧
      (events.foldl (EnhancedWhatsAppHandler.dispatchStep fails now) (states, p, e)).2.2 =
          e ++ events.filterMap (fun d => (fails d).map
            (fun msg => ({ event := d.eventType, error := msg } : ProcessingError))) := by
  intro events
  induction events with
  | nil => intro states p e; simp
  | cons d t ih =>
    intro states p e
    rw [List.foldl_cons]
    cases hfd : fails d with
    | none =>
      have hstep : EnhancedWhatsAppHandler.dispatchStep fails now (states, p, e) d =
          ((if d.conversationId ≠ "" then
              (ConversationStateManager.updateStateFromMessage states d now).2
            else states), p ++ [d], e) := by
        simp [EnhancedWhatsAppHandler.dispatchStep, hfd]
      rw [hstep]
      rcases ih _ (p ++ [d]) e with ⟨h1, h2⟩
      constructor
      · rw [h1, List.filter_cons]
        simp [hfd]
      · rw [h2, List.filterMap_cons]
        simp [hfd]
    | some msg =>
      have hstep : EnhancedWhatsAppHandler.dispatchStep fails now (states, p, e) d =
          ((if d.conversationId ≠ "" then
              (ConversationStateManager.updateStateFromMessage states d now).2
            else states), p,
            e ++ [{ event := d.eventType, error := msg }]) := by
        simp [EnhancedWhatsAppHandler.dispatchStep, hfd]
      rw [hstep]
      rcases ih _ p (e ++ [{ event := d.eventType, error := msg }]) with ⟨h1, h2⟩
      constructor
      · rw [h1, List.filter_cons]
        simp [hfd]
      · rw [h2, List.filterMap_cons]
        simp [hfd]

theorem length_filter_none_add_filterMap {α β : Type}
    (fails : α → Option String) (mk : α → String → β) (l : List α) :
    (l.filter (fun d => (fails d).isNone)).length +
      (l.filterMap (fun d => (fails d).map (mk d))).length = l.length := by
  induction l with
  | nil => rfl
  | cons d t ih =>
    cases hfd : fails d with
    | none =>
      rw [List.filter_cons, List.filterMap_cons]
      simp only [hfd, Option.isNone_none, Option.map_none']
      simp only [if_pos, List.length_cons]
      omega
    | some msg =>
      rw [List.filter_cons, List.filterMap_cons]
      simp only [hfd]
      simp only [Option.isNone_some, Bool.false_eq_true, if_false, Option.map_some',
        List.length_cons]
      omega

/-- C2: for every extracted event list, a failure while processing one
event is recorded as a per-event error and the loop continues: the
aggregated result satisfies totalEvents = processedEvents + errors, has
success = true exactly when zero per-event errors occurred, lists exactly
the successfully processed events (in order), and the failing events appear
exactly (and only) in the error detail list. -/
theorem webhook_batch_aggregation (states : ConversationStateManager.States)
    (fails : ExtractedWebhookData → Option String) (now : Nat)
    (extractedData : List ExtractedWebhookData) :
    (EnhancedWhatsAppHandler.handleWebhookEventsLoop states fails now
        extractedData).1.statistics.totalEvents =
      (EnhancedWhatsAppHandler.handleWebhookEventsLoop states fails now
        extractedData).1.statistics.processedEvents +
      (EnhancedWhatsAppHandler.handleWebhookEventsLoop states fails now
        extractedData).1.statistics.errors ∧
    ((EnhancedWhatsAppHandler.handleWebhookEventsLoop states fails now
        extractedData).1.success = true ↔
      (EnhancedWhatsAppHandler.handleWebhookEventsLoop states fails now
        extractedData).1.statistics.errors = 0) ∧
    (EnhancedWhatsAppHandler.handleWebhookEventsLoop states fails now
        extractedData).1.events =
      extractedData.filter (fun d => (fails d).isNone) ∧
    (((EnhancedWhatsAppHandler.handleWebhookEventsLoop states fails now
        extractedData).1.error.map (fun e => e.details)).getD []) =
      extractedData.filterMap (fun d => (fails d).map
        (fun msg => ({ event := d.eventType, error := msg } : ProcessingError))) := by
  rcases dispatch_fold_processed_errors fails now extractedData states [] [] with ⟨h1, h2⟩
  rw [List.nil_append] at h1 h2
  have hsum := length_filter_none_add_filterMap fails
    (fun d msg => ({ event := d.eventType, error := msg } : ProcessingError)) extractedData
  refine ⟨?_, ?_, ?_, ?_⟩
  · show extractedData.length = _ + _
    simp only [EnhancedWhatsAppHandler.handleWebhookEventsLoop,
      EnhancedWhatsAppHandler.dispatchEvents] at *
    rw [h1, h2]
    omega
  · simp only [EnhancedWhatsAppHandler.handleWebhookEventsLoop,
      EnhancedWhatsAppHandler.dispatchEvents] at *
    rw [h2]
    simp
  · simp only [EnhancedWhatsAppHandler.handleWebhookEventsLoop,
      EnhancedWhatsAppHandler.dispatchEvents] at *
    exact h1
  · simp only [EnhancedWhatsAppHandler.handleWebhookEventsLoop,
      EnhancedWhatsAppHandler.dispatchEvents] at *
    rw [h2]
    cases hE : extractedData.filterMap (fun d => (fails d).map
        (fun msg => ({ event := d.eventType, error := msg } : ProcessingError))) with
    | nil => simp
    | cons a t => simp

/-! ## C5 — messageCount evolution -/

/-- The message count of a conversation (0 when the conversation has no
state yet), the quantity the spec's messageCount invariant is about. -/
def messageCountOf (states : ConversationStateManager.States) (c : String) : Nat :=
  ((ConversationStateManager.getState states c).map (fun s => s.messageCount)).getD 0

theorem messageCountOf_updateStateFromMessage
    (states : ConversationStateManager.States) (d : ExtractedWebhookData)
    (now : Nat) (c : String) :
    messageCountOf (ConversationStateManager.updateStateFromMessage states d now).2 c =
      if d.conversationId = c then messageCountOf states c + 1
      else messageCountOf states c := by
  by_cases h : d.conversationId = c
  · rw [if_pos h]
    unfold ConversationStateManager.updateStateFromMessage
      ConversationStateManager.updateState messageCountOf ConversationStateManager.getState
    rw [← h]
    rw [mapGet_mapSet_self]
    simp [messageCountOf, ConversationStateManager.getState, h]
  · rw [if_neg h]
    unfold ConversationStateManager.updateStateFromMessage
      ConversationStateManager.updateState messageCountOf ConversationStateManager.getState
    rw [mapGet_mapSet_ne _ _ _ _ h]

theorem messageCountOf_updateState_noCount
    (states : ConversationStateManager.States) (conversationId : String)
    (updates : ConversationStateUpdates) (now : Nat) (c : String)
    (h : updates.messageCount = none) :
    messageCountOf (ConversationStateManager.updateState states conversationId
        updates now).2 c = messageCountOf states c := by
  by_cases hc : conversationId = c
  · unfold ConversationStateManager.updateState messageCountOf
      ConversationStateManager.getState
    rw [hc, mapGet_mapSet_self]
    simp [h, ← hc]
  · unfold ConversationStateManager.updateState messageCountOf
      ConversationStateManager.getState
    rw [mapGet_mapSet_ne _ _ _ _ hc]

theorem dispatch_fold_states
    (fails : ExtractedWebhookData → Option String) (now : Nat) :
    ∀ (events : List ExtractedWebhookData) (states : ConversationStateManager.States)
      (p : List ExtractedWebhookData) (e : List ProcessingError),
      (events.foldl (EnhancedWhatsAppHandler.dispatchStep fails now) (states, p, e)).1 =
        events.foldl (fun st d =>
          if d.conversationId ≠ "" then
            (ConversationStateManager.updateStateFromMessage st d now).2
          else st) states := by
  intro events
  induction events with
  | nil => intro states p e; rfl
  | cons d t ih =>
    intro states p e
    rw [List.foldl_cons, List.foldl_cons]
    cases hfd : fails d with
    | none =>
      have hstep : EnhancedWhatsAppHandler.dispatchStep fails now (states, p, e) d =
          ((if d.conversationId ≠ "" then
              (ConversationStateManager.updateStateFromMessage states d now).2
            else states), p ++ [d], e) := by
        simp [EnhancedWhatsAppHandler.dispatchStep, hfd]
      rw [hstep]
      exact ih _ _ _
    | some msg =>
      have hstep : EnhancedWhatsAppHandler.dispatchStep fails now (states, p, e) d =
          ((if d.conversationId ≠ "" then
              (ConversationStateManager.updateStateFromMessage states d now).2
            else states), p,
            e ++ [{ event := d.eventType, error := msg }]) := by
        simp [EnhancedWhatsAppHandler.dispatchStep, hfd]
      rw [hstep]
      exact ih _ _ _

theorem state_fold_count (now : Nat) (c : String) (hc : c ≠ "") :
    ∀ (events : List ExtractedWebhookData) (states : ConversationStateManager.States),
      messageCountOf (events.foldl (fun st d =>
          if d.conversationId ≠ "" then
            (ConversationStateManager.updateStateFromMessage st d now).2
          else st) states) c =
        messageCountOf states c +
          (events.filter (fun d => d.conversationId == c)).length := by
  intro events
  induction events with
  | nil => intro states; simp
  | cons d t ih =>
    intro states
    rw [List.foldl_cons, List.filter_cons]
    by_cases hd : d.conversationId = c
    · have hne : d.conversationId ≠ "" := by rw [hd]; exact hc
      rw [if_pos hne]
      rw [ih _]
      rw [messageCountOf_updateStateFromMessage, if_pos hd]
      simp [hd]
      omega
    · have hbeq : (d.conversationId == c) = false := beq_eq_false_iff_ne.mpr hd
      rw [hbeq]
      by_cases hne : d.conversationId ≠ ""
      · rw [if_pos hne, ih _, messageCountOf_updateStateFromMessage, if_neg hd]
        simp
      · rw [if_neg hne, ih _]
        simp

/-- C5 amended: the dispatcher calls `updateStateFromMessage` for every
extracted event with a truthy conversationId — inbound messages, status
updates and error events alike — so after dispatching a batch, a
conversation's messageCount equals its previous count plus the number of
events of ANY type addressed to it; `setStep` and `updateContext` leave
every messageCount unchanged. -/
theorem messageCount_counts_all_events (states : ConversationStateManager.States)
    (fails : ExtractedWebhookData → Option String) (now : Nat)
    (events : List ExtractedWebhookData) (c : String) (hc : c ≠ "") :
    messageCountOf (EnhancedWhatsAppHandler.dispatchEvents states fails now events).1 c =
      messageCountOf states c +
        (events.filter (fun d => d.conversationId == c)).length ∧
    (∀ (states2 : ConversationStateManager.States) (cid step : String) (now2 : Nat),
      messageCountOf (ConversationStateManager.setStep states2 cid step now2).2 c =
        messageCountOf states2 c) ∧
    (∀ (states2 : ConversationStateManager.States) (cid : String)
        (ctx : List (String × String)) (now2 : Nat),
      messageCountOf (ConversationStateManager.updateContext states2 cid ctx now2).2 c =
        messageCountOf states2 c) := by
  refine ⟨?_, ?_, ?_⟩
  · rw [EnhancedWhatsAppHandler.dispatchEvents, dispatch_fold_states fails now events states [] []]
    exact state_fold_count now c hc events states
  · intro states2 cid step now2
    exact messageCountOf_updateState_noCount states2 cid _ now2 c rfl
  · intro states2 cid ctx now2
    exact messageCountOf_updateState_noCount states2 cid _ now2 c rfl

/-- A status-update event addressed to conversation "555" (no inbound
message anywhere in it). -/
def statusOnlyEvent : ExtractedWebhookData :=
  { eventType := "status:delivered"
    timestamp := 0
    phoneNumberId := "123"
    displayPhoneNumber := "15550001111"
    waId := "555"
    displayName := "unknown"
    messageId := some "wamid.s1"
    conversationId := "555"
    content := {}
    status := some { status := "delivered", timestamp := 0 }
    raw := {} }

/-- C5 counterexample: dispatching a single status-update event (no inbound
message) creates conversation "555" with messageCount 1 — messageCount does
NOT increase only on inbound message events. -/
theorem messageCount_status_counterexample :
    statusOnlyEvent.eventType = "status:delivered" ∧
    messageCountOf (EnhancedWhatsAppHandler.dispatchEvents [] (fun _ => none) 0
        [statusOnlyEvent]).1 "555" = 1 :=
  ⟨rfl, by decide⟩

/-- Witness for the amended C5: two status events and one message event for
"555" yield messageCount 3, and a `setStep` leaves it unchanged. -/
theorem messageCount_counts_all_events_witness :
    messageCountOf (EnhancedWhatsAppHandler.dispatchEvents [] (fun _ => none) 0
        [statusOnlyEvent, statusOnlyEvent, statusOnlyEvent]).1 "555" =
      messageCountOf [] "555" +
        (([statusOnlyEvent, statusOnlyEvent, statusOnlyEvent].filter
          (fun d => d.conversationId == "555")).length) ∧
    messageCountOf (ConversationStateManager.setStep [] "555" "step1" 0).2 "555" =
      messageCountOf [] "555" :=
  ⟨(messageCount_counts_all_events [] (fun _ => none) 0
      [statusOnlyEvent, statusOnlyEvent, statusOnlyEvent] "555" (by decide)).1,
   (messageCount_counts_all_events [] (fun _ => none) 0
      [statusOnlyEvent, statusOnlyEvent, statusOnlyEvent] "555" (by decide)).2.1 [] "555" "step1" 0⟩

/-! ## C3 — extraction order and count -/

/-- Spec-side definition (from the spec's words, for comparison with the
extractor): the envelope-order listing of sub-event ids — entries in order,
changes in order within an entry, inbound messages then status updates
within a change. -/
def specOrderedEventIds (w : WebhookMessage) : List (Option String) :=
  w.entry.flatMap (fun entry => entry.changes.flatMap (fun change =>
    ((change.value.messages.getD []).map (fun m => some m.id)) ++
    ((change.value.statuses.getD []).map (fun s => some s.id))))

/-- Number of inbound messages in the envelope (the spec's N). -/
def inboundMessageCount (w : WebhookMessage) : Nat :=
  (w.entry.flatMap (fun entry =>
    entry.changes.flatMap (fun change => change.value.messages.getD []))).length

/-- Number of status updates in the envelope (the spec's M). -/
def statusUpdateCount (w : WebhookMessage) : Nat :=
  (w.entry.flatMap (fun entry =>
    entry.changes.flatMap (fun change => change.value.statuses.getD []))).length

/-- No change of the envelope carries top-level error reports. -/
def noTopLevelErrors (w : WebhookMessage) : Prop :=
  ∀ entry ∈ w.entry, ∀ change ∈ entry.changes, change.value.errors.getD [] = []

instance (w : WebhookMessage) : Decidable (noTopLevelErrors w) := by
  unfold noTopLevelErrors
  infer_instance

theorem extractFromValue_messageIds (value : ChangeValue) (nowMs : Int)
    (herr : value.errors.getD [] = []) :
    (WebhookExtractor.extractFromValue value nowMs).map (fun e => e.messageId) =
      ((value.messages.getD []).map (fun m => some m.id)) ++
      ((value.statuses.getD []).map (fun s => some s.id)) := by
  simp only [WebhookExtractor.extractFromValue, herr]
  simp only [List.map_nil, List.append_nil, List.map_append, List.map_map]
  rfl

theorem changes_flatMap_messageIds (nowMs : Int) :
    ∀ (cs : List Change), (∀ ch ∈ cs, ch.value.errors.getD [] = []) →
      (cs.flatMap (fun change =>
          WebhookExtractor.extractFromValue change.value nowMs)).map (fun e => e.messageId) =
        cs.flatMap (fun change =>
          ((change.value.messages.getD []).map (fun m => some m.id)) ++
          ((change.value.statuses.getD []).map (fun s => some s.id))) := by
  intro cs
  induction cs with
  | nil => intro _; rfl
  | cons ch ct ih =>
    intro hcs
    rw [List.flatMap_cons, List.flatMap_cons, List.map_append]
    rw [extractFromValue_messageIds ch.value nowMs (hcs ch (List.mem_cons_self _ _))]
    rw [ih (fun ch2 h2 => hcs ch2 (List.mem_cons_of_mem _ h2))]

theorem entries_flatMap_messageIds (nowMs : Int) :
    ∀ (es : List Entry), (∀ en ∈ es, ∀ ch ∈ en.changes, ch.value.errors.getD [] = []) →
      (es.flatMap (fun entry => entry.changes.flatMap (fun change =>
          WebhookExtractor.extractFromValue change.value nowMs))).map (fun e => e.messageId) =
        es.flatMap (fun entry => entry.changes.flatMap (fun change =>
          ((change.value.messages.getD []).map (fun m => some m.id)) ++
          ((change.value.statuses.getD []).map (fun s => some s.id)))) := by
  intro es
  induction es with
  | nil => intro _; rfl
  | cons en tl ih =>
    intro hh
    rw [List.flatMap_cons, List.flatMap_cons, List.map_append]
    rw [changes_flatMap_messageIds nowMs en.changes
      (fun ch hch => hh en (List.mem_cons_self _ _) ch hch)]
    rw [ih (fun en2 h2 ch hch => hh en2 (List.mem_cons_of_mem _ h2) ch hch)]

theorem changes_flatMap_idLength :
    ∀ (cs : List Change),
      (cs.flatMap (fun change =>
          ((change.value.messages.getD []).map (fun m => some m.id)) ++
          ((change.value.statuses.getD []).map (fun s => some s.id)))).length =
        (cs.flatMap (fun change => change.value.messages.getD [])).length +
        (cs.flatMap (fun change => change.value.statuses.getD [])).length := by
  intro cs
  induction cs with
  | nil => rfl
  | cons ch ct ih =>
    rw [List.flatMap_cons, List.flatMap_cons, List.flatMap_cons]
    simp only [List.length_append, List.length_map]
    omega

theorem specOrderedEventIds_length (w : WebhookMessage) :
    (specOrderedEventIds w).length = inboundMessageCount w + statusUpdateCount w := by
  unfold specOrderedEventIds inboundMessageCount statusUpdateCount
  induction w.entry with
  | nil => rfl
  | cons en tl ih =>
    rw [List.flatMap_cons, List.flatMap_cons, List.flatMap_cons]
    simp only [List.length_append]
    rw [changes_flatMap_idLength en.changes]
    omega

/-- C3: for every envelope with no top-level error reports, the extractor
produces exactly N+M events (N inbound messages, M status updates), and its
event-by-event id projection equals the envelope-order listing of
sub-events — entries, then changes, then messages then statuses within a
change — with no reordering and no deduplication (a redelivered id appears
as many times in the output as in the envelope). -/
theorem extractor_order_and_count (w : WebhookMessage) (nowMs : Int)
    (h : noTopLevelErrors w) :
    (WebhookExtractor.extractMessageData w nowMs).map (fun e => e.messageId) =
      specOrderedEventIds w ∧
    (WebhookExtractor.extractMessageData w nowMs).length =
      inboundMessageCount w + statusUpdateCount w := by
  have h1 : (WebhookExtractor.extractMessageData w nowMs).map (fun e => e.messageId) =
      specOrderedEventIds w := by
    unfold WebhookExtractor.extractMessageData specOrderedEventIds
    exact entries_flatMap_messageIds nowMs w.entry h
  refine ⟨h1, ?_⟩
  have h2 := congrArg List.length h1
  rw [List.length_map] at h2
  rw [h2, specOrderedEventIds_length]

/-- A text message "hi" from sender "555". -/
def textMessageHi : InboundMessage :=
  { sender := "555", id := "wamid.m1", timestamp := "1700000000",
    text := some { body := "hi" } }

def imageMessageFixture : InboundMessage :=
  { sender := "555", id := "wamid.m2", timestamp := "5", image := some {} }

def statusDeliveredFixture : StatusUpdate :=
  { id := "wamid.m0", status := "delivered", timestamp := "6", recipient_id := "555" }

def sampleChangeValue : ChangeValue :=
  { metadata := some { display_phone_number := "15550001111", phone_number_id := "123" }
    contacts := some [{ profile_name := "Alice", wa_id := "555" }]
    messages := some [textMessageHi, imageMessageFixture]
    statuses := some [statusDeliveredFixture] }

def sampleEnvelope : WebhookMessage :=
  { entry := [{ id := "e1", changes := [{ value := sampleChangeValue, field := "messages" }] }] }

/-- A change value in which the provider redelivers the very same message
event twice. -/
def redeliveredChangeValue : ChangeValue :=
  { sampleChangeValue with
    messages := some [textMessageHi, textMessageHi]
    statuses := none }

/-- An envelope redelivering the same message event twice. -/
def redeliveredEnvelope : WebhookMessage :=
  { entry := [{ id := "e1", changes := [{ value := redeliveredChangeValue, field := "messages" }] }] }

/-- Witness for C3: two messages and one status yield 3 events in envelope
order; a redelivered message id yields a duplicate extracted event. -/
theorem extractor_order_and_count_witness :
    noTopLevelErrors sampleEnvelope ∧
    (WebhookExtractor.extractMessageData sampleEnvelope 0).map (fun e => e.messageId) =
      [some "wamid.m1", some "wamid.m2", some "wamid.m0"] ∧
    (WebhookExtractor.extractMessageData sampleEnvelope 0).length = 3 ∧
    (WebhookExtractor.extractMessageData redeliveredEnvelope 0).map (fun e => e.messageId) =
      [some "wamid.m1", some "wamid.m1"] :=
  ⟨by decide,
   (extractor_order_and_count sampleEnvelope 0 (by decide)).1,
   (extractor_order_and_count sampleEnvelope 0 (by decide)).2,
   (extractor_order_and_count redeliveredEnvelope 0 (by decide)).1⟩

/-! ## C4 — generic message handler dispatch for a text message -/

def oneTextChangeValue : ChangeValue :=
  { metadata := some { display_phone_number := "15550001111", phone_number_id := "123" }
    contacts := some [{ profile_name := "Alice", wa_id := "555" }]
    messages := some [textMessageHi] }

def oneTextChange : Change := { value := oneTextChangeValue, field := "messages" }

def oneTextEntry : Entry := { id := "e1", changes := [oneTextChange] }

/-- A POST envelope containing exactly one text message "hi" from "555". -/
def oneTextEnvelope : WebhookMessage := { entry := [oneTextEntry] }

/-- C4 counterexample: for the envelope with exactly one text message and
only the generic message handler registered, the dispatch invokes the
generic `onMessage` handler twice for the single extracted event (once with
the raw change value, once through the text entry of the sub-type table),
not exactly once as claimed. -/
theorem generic_handler_invoked_twice :
    (WebhookExtractor.extractMessageData oneTextEnvelope 0).map (fun e =>
      ((EnhancedWhatsAppHandler.callWebhookHandlers (fun h => h == "onMessage") e).filter
        (fun i => i.handler == "onMessage")).length) = [2] := by
  decide

/-- C4 amended: for every envelope with exactly one text message whose body
is `b`, dispatched with the generic message handler registered, extraction
yields exactly one event and the generic `onMessage` handler is invoked
exactly twice for it — first with the raw change value, then with the
extracted content — and that content's `text` equals the message body. -/
theorem generic_handler_text_dispatch (w : WebhookMessage) (en : Entry) (ch : Change)
    (m : InboundMessage) (b : String) (registered : String → Bool) (nowMs : Int)
    (hw : w.entry = [en]) (hen : en.changes = [ch]) (hm : ch.value.messages = some [m])
    (hs : ch.value.statuses = none) (herr : ch.value.errors = none)
    (ht : m.text = some { body := b }) (hreg : registered "onMessage" = true) :
    (WebhookExtractor.extractMessageData w nowMs).map (fun e =>
      ((EnhancedWhatsAppHandler.callWebhookHandlers registered e).filter
        (fun i => i.handler == "onMessage")).map (fun i => i.argument)) =
      [[.raw ch.value, .content (WebhookExtractor.extractMessageContent m)]] ∧
    (WebhookExtractor.extractMessageContent m).text = some b := by
  have htype : WebhookExtractor.determineMessageEventType m = "message:text" := by
    simp [WebhookExtractor.determineMessageEventType, ht]
  have hsplit : jsSplit "message:text" ':' = ["message", "text"] := by decide
  constructor
  · rw [WebhookExtractor.extractMessageData, hw]
    rw [List.flatMap_cons, List.flatMap_nil, List.append_nil, hen]
    rw [List.flatMap_cons, List.flatMap_nil, List.append_nil]
    simp only [WebhookExtractor.extractFromValue, hm, hs, herr]
    simp only [Option.getD_some, Option.getD_none, List.map_cons, List.map_nil,
      List.append_nil, List.nil_append]
    simp only [EnhancedWhatsAppHandler.callWebhookHandlers, htype, hsplit]
    simp only [List.getD, List.get?, Option.getD_some]
    have hmap : EnhancedWhatsAppHandler.handlerMap "text" = some "onMessage" := by decide
    simp [hmap, hreg]
  · simp [WebhookExtractor.extractMessageContent, ht]

/-- Witness for the amended C4 at the concrete one-text-message envelope. -/
theorem generic_handler_text_dispatch_witness :
    (WebhookExtractor.extractMessageData oneTextEnvelope 0).map (fun e =>
      ((EnhancedWhatsAppHandler.callWebhookHandlers (fun h => h == "onMessage") e).filter
        (fun i => i.handler == "onMessage")).map (fun i => i.argument)) =
      [[.raw oneTextChangeValue,
        .content (WebhookExtractor.extractMessageContent textMessageHi)]] ∧
    (WebhookExtractor.extractMessageContent textMessageHi).text = some "hi" :=
  generic_handler_text_dispatch oneTextEnvelope oneTextEntry oneTextChange textMessageHi
    "hi" (fun h => h == "onMessage") 0 rfl rfl rfl rfl rfl rfl (by decide)

/-! ## C7 — outgoing message store round-trip -/

/-- C7 amended: `sendMessage` stores the pending record first under the
locally generated id; after the attempt resolves, the record in the message
map is overwritten in place under the same id with status `sent` (provider
id attached) or `failed` — the message map gains no second entry — BUT the
second `storeMessage` call appends the id to the conversation index again,
so the conversation index ends with the id listed twice. -/
theorem sendMessage_storage_roundtrip (s : MemoryMessageStorage.Store)
    (toNumber message localId : String) (now : Nat) (outcome : SendOutcome)
    (hid : localId ≠ "") :
    MemoryMessageStorage.getMessage
        (EnhancedWhatsAppHandler.sendMessageStore s toNumber message localId now outcome).2.1
        localId =
      some (pendingOutgoingRecord toNumber message localId now) ∧
    MemoryMessageStorage.getMessage
        (EnhancedWhatsAppHandler.sendMessageStore s toNumber message localId now outcome).1
        localId =
      some (EnhancedWhatsAppHandler.sendMessageStore s toNumber message localId now
        outcome).2.2 ∧
    (EnhancedWhatsAppHandler.sendMessageStore s toNumber message localId now
        outcome).2.2.id = localId ∧
    (EnhancedWhatsAppHandler.sendMessageStore s toNumber message localId now
        outcome).2.2.status =
      (match outcome with | .ok _ => "sent" | .failed _ => "failed") ∧
    (EnhancedWhatsAppHandler.sendMessageStore s toNumber message localId now
        outcome).1.messages.length =
      (EnhancedWhatsAppHandler.sendMessageStore s toNumber message localId now
        outcome).2.1.messages.length ∧
    mapGet (EnhancedWhatsAppHandler.sendMessageStore s toNumber message localId now
        outcome).1.conversationIndex toNumber =
      some (((mapGet s.conversationIndex toNumber).getD []) ++ [localId, localId]) := by
  cases outcome with
  | ok pid =>
    refine ⟨?_, ?_, ?_, ?_, ?_, ?_⟩
    · simp only [EnhancedWhatsAppHandler.sendMessageStore,
        MemoryMessageStorage.storeMessage, MemoryMessageStorage.getMessage]
      simp [pendingOutgoingRecord, hid, mapGet_mapSet_self]
    · simp only [EnhancedWhatsAppHandler.sendMessageStore,
        MemoryMessageStorage.storeMessage, MemoryMessageStorage.getMessage]
      simp [pendingOutgoingRecord, hid, mapGet_mapSet_self]
    · simp [EnhancedWhatsAppHandler.sendMessageStore, pendingOutgoingRecord]
    · simp [EnhancedWhatsAppHandler.sendMessageStore, pendingOutgoingRecord]
    · simp only [EnhancedWhatsAppHandler.sendMessageStore,
        MemoryMessageStorage.storeMessage]
      simp only [hid, if_pos, ne_eq, not_false_iff]
      refine length_mapSet_of_mem _ _ _ ?_
      simp [hid, mapGet_mapSet_self, pendingOutgoingRecord]
    · simp only [EnhancedWhatsAppHandler.sendMessageStore,
        MemoryMessageStorage.storeMessage]
      simp [hid, mapGet_mapSet_self, pendingOutgoingRecord, List.append_assoc]
  | failed errMsg =>
    refine ⟨?_, ?_, ?_, ?_, ?_, ?_⟩
    · simp only [EnhancedWhatsAppHandler.sendMessageStore,
        MemoryMessageStorage.storeMessage, MemoryMessageStorage.getMessage]
      simp [pendingOutgoingRecord, hid, mapGet_mapSet_self]
    · simp only [EnhancedWhatsAppHandler.sendMessageStore,
        MemoryMessageStorage.storeMessage, MemoryMessageStorage.getMessage]
      simp [pendingOutgoingRecord, hid, mapGet_mapSet_self]
    · simp [EnhancedWhatsAppHandler.sendMessageStore, pendingOutgoingRecord]
    · simp [EnhancedWhatsAppHandler.sendMessageStore, pendingOutgoingRecord]
    · simp only [EnhancedWhatsAppHandler.sendMessageStore,
        MemoryMessageStorage.storeMessage]
      simp only [hid, if_pos, ne_eq, not_false_iff]
      refine length_mapSet_of_mem _ _ _ ?_
      simp [hid, mapGet_mapSet_self, pendingOutgoingRecord]
    · simp only [EnhancedWhatsAppHandler.sendMessageStore,
        MemoryMessageStorage.storeMessage]
      simp [hid, mapGet_mapSet_self, pendingOutgoingRecord, List.append_assoc]

/-- C7 counterexample: after one successful `sendMessage` round-trip on an
empty store, the conversation index lists the (single) message's id twice,
and `getMessages` for that conversation returns the message two times —
the update is not free of duplication in the store's own retrieval. -/
theorem sendMessage_duplicate_listing :
    mapGet (EnhancedWhatsAppHandler.sendMessageStore {} "555" "hi" "out_1" 0
        (.ok (some "wamid.X"))).1.conversationIndex "555" = some ["out_1", "out_1"] ∧
    (MemoryMessageStorage.getMessages
        (EnhancedWhatsAppHandler.sendMessageStore {} "555" "hi" "out_1" 0
          (.ok (some "wamid.X"))).1 "555" 50 0).length = 2 := by
  decide

/-- Witness for the amended C7 at a concrete send. -/
theorem sendMessage_storage_roundtrip_witness :
    MemoryMessageStorage.getMessage
        (EnhancedWhatsAppHandler.sendMessageStore {} "555" "hi" "out_1" 0
          (.ok (some "wamid.X"))).2.1 "out_1" =
      some (pendingOutgoingRecord "555" "hi" "out_1" 0) ∧
    (EnhancedWhatsAppHandler.sendMessageStore {} "555" "hi" "out_1" 0
        (.ok (some "wamid.X"))).2.2.id = "out_1" ∧
    (EnhancedWhatsAppHandler.sendMessageStore {} "555" "hi" "out_1" 0
        (.ok (some "wamid.X"))).2.2.status = "sent" :=
  ⟨(sendMessage_storage_roundtrip {} "555" "hi" "out_1" 0 (.ok (some "wamid.X"))
      (by decide)).1,
   (sendMessage_storage_roundtrip {} "555" "hi" "out_1" 0 (.ok (some "wamid.X"))
      (by decide)).2.2.1,
   (sendMessage_storage_roundtrip {} "555" "hi" "out_1" 0 (.ok (some "wamid.X"))
      (by decide)).2.2.2.1⟩

/-! ## C10 — pagination before sorting in getMessages -/

def storedA : StoredMessage :=
  { id := "a", conversationId := "c", direction := "incoming", msgType := "text",
    content := "x", timestamp := 3, status := "delivered" }

def storedB : StoredMessage := { storedA with id := "b", timestamp := 1 }

def storedC : StoredMessage := { storedA with id := "c2", timestamp := 2 }

/-- Messages stored in insertion order a (t=3), b (t=1), c2 (t=2). -/
def insertionOrderStore : MemoryMessageStorage.Store :=
  (MemoryMessageStorage.storeMessage
    ((MemoryMessageStorage.storeMessage
      ((MemoryMessageStorage.storeMessage {} storedA "").2) storedB "").2) storedC "").2

/-- C10: `getMessages` selects the page by applying offset and limit to the
conversation's message ids in insertion (storage) order and only then sorts
the selected page by timestamp descending: the result is a permutation of
the insertion-order window and is sorted newest-first; the closed conjunct
shows a page (limit 2, offset 0) over messages with timestamps 3,1,2 in
insertion order returning the first two INSERTED messages (t=3,1), not the
two newest (t=3,2). -/
theorem getMessages_pagination (s : MemoryMessageStorage.Store) (conversationId : String)
    (limit offset : Nat) :
    List.Perm (MemoryMessageStorage.getMessages s conversationId limit offset)
      (((((mapGet s.conversationIndex conversationId).getD []).drop offset).take
        limit).filterMap (fun id => mapGet s.messages id)) ∧
    List.Sorted timestampDesc
      (MemoryMessageStorage.getMessages s conversationId limit offset) ∧
    MemoryMessageStorage.getMessages insertionOrderStore "c" 2 0 = [storedA, storedB] := by
  refine ⟨?_, ?_, ?_⟩
  · exact List.perm_insertionSort timestampDesc _
  · exact List.sorted_insertionSort timestampDesc _
  · decide
